import Mathlib

/-!
Verification of the treelite model serializer (src/serializer.cc) against its
natural-language specification.

The serializer orchestration code (Serializer / Deserializer classes, the
top-level transport entry points, the v3 legacy record types and the task-type
string mapping) is embedded directly from the source.  The parts of the
repository that the source file references but that are not present under
src/ (the transport mixins of serializer_mixins.h, the Model / Tree containers
of tree.h, the version constants of version.h) are modelled from the spec;
each such definition carries a doc comment starting with: Modelled from the
spec.

Numeric payloads (floating-point thresholds, leaf outputs, training
statistics) are never interpreted by the serializer; they are modelled by
their bit patterns as integers.  Machine-integer widths are not re-enacted
bit-for-bit: a field of the artifact is modelled at the granularity of one
scalar token, which is exactly the granularity at which serializer.cc
manipulates the transport.
-/

namespace TreeliteSpec

/-- One scalar token of an artifact: an integral value (integers, booleans,
enum tags and floating bit patterns) or a character-array payload. -/
inductive Scalar where
  | i : Int → Scalar
  | s : String → Scalar
deriving DecidableEq, Repr

/-- Modelled from the spec: one length-tagged, self-describing unit of the
buffer-frame transport.  Each mixin write call of serializer.cc produces
exactly one frame; composite frames carry their layout descriptor. -/
inductive Frame where
  | prim : Scalar → Frame
  | primArr : List Scalar → Frame
  | comp : String → List Scalar → Frame
  | compArr : String → List (List Scalar) → Frame
deriving DecidableEq, Repr

/-- Fatal error kinds of the protocol (TREELITE_LOG(FATAL) / TREELITE_CHECK
in the source; transport-level failures modelled from the spec). -/
inductive Err where
  | badVersion
  | countMismatch
  | layoutMismatch
  | typeMismatch
  | endOfInput
  | unsupportedTypePair
  | badTaskType
deriving DecidableEq, Repr

/-- Warnings emitted by the version negotiation (TREELITE_LOG(WARNING)). -/
inductive Warn where
  | legacyModel
  | newerMinor
deriving DecidableEq, Repr

/-- Modelled from the spec: the current library version triple (version.h is
not under src/).  The source requires the current major version to differ
from the legacy checkpoint major 3, so the current major is 4. -/
def TREELITE_VER_MAJOR : Int := 4

/-- Modelled from the spec: current minor version. -/
def TREELITE_VER_MINOR : Int := 0

/-- Modelled from the spec: current patch version. -/
def TREELITE_VER_PATCH : Int := 0

/-- Tag of the unsigned 32-bit integer numeric type. -/
def kUInt32Tag : Int := 1

/-- Tag of the 32-bit floating-point numeric type. -/
def kFloat32Tag : Int := 2

/-- Tag of the 64-bit floating-point numeric type. -/
def kFloat64Tag : Int := 3

/-- Modelled from the spec: the closed set of supported
(threshold type, leaf output type) pairs of the type dispatcher. -/
inductive TypePair where
  | f32f32
  | f32u32
  | f64f64
deriving DecidableEq, Repr

def TypePair.thresholdTag : TypePair → Int
  | .f32f32 => kFloat32Tag
  | .f32u32 => kFloat32Tag
  | .f64f64 => kFloat64Tag

def TypePair.leafTag : TypePair → Int
  | .f32f32 => kFloat32Tag
  | .f32u32 => kUInt32Tag
  | .f64f64 => kFloat64Tag

/-- Modelled from the spec: runtime dispatch from a pair of numeric type tags
to the concrete tree-container instantiation. -/
def typePairOfTags (t l : Int) : Option TypePair :=
  if t = kFloat32Tag ∧ l = kFloat32Tag then some .f32f32
  else if t = kFloat32Tag ∧ l = kUInt32Tag then some .f32u32
  else if t = kFloat64Tag ∧ l = kFloat64Tag then some .f64f64
  else none

/-- Encoding of a boolean as a scalar token. -/
def scalarOfBool (b : Bool) : Scalar := .i (if b then 1 else 0)

/-- Modelled from the spec: the task-parameter composite of the current
model container (tree.h is not under src/); its shape is fixed by the layout
descriptor written in SerializeHeader. -/
structure TaskParam where
  output_type : Int
  grove_per_class : Bool
  num_class : Int
  leaf_vector_size : Int
deriving DecidableEq, Repr

/-- Modelled from the spec: the model-parameter (prediction-transform)
composite of the current model container. -/
structure ModelParam where
  pred_transform : String
  sigmoid_alpha : Int
  ratio_c : Int
  global_bias : Int
deriving DecidableEq, Repr

/-- Old TaskParam struct used in the Treelite v3 format (serializer.cc). -/
structure TaskParamV3 where
  output_type : Int
  grove_per_class : Bool
  num_class : Int
  leaf_vector_size : Int
deriving DecidableEq, Repr

/-- Old ModelParam struct used in the Treelite v3 format (serializer.cc). -/
structure ModelParamV3 where
  pred_transform : String
  sigmoid_alpha : Int
  ratio_c : Int
  global_bias : Int
deriving DecidableEq, Repr

/-- Modelled from the spec: a node of the current tree container (tree.h is
not under src/): child indices, packed split index, value slot, optional
training statistics with presence flags, split metadata. -/
structure Node where
  cleft_ : Int
  cright_ : Int
  sindex_ : Int
  info_ : Int
  data_count_ : Int
  sum_hess_ : Int
  gain_ : Int
  split_type_ : Int
  cmp_ : Int
  data_count_present_ : Bool
  sum_hess_present_ : Bool
  gain_present_ : Bool
  categories_list_right_child_ : Bool
deriving DecidableEq, Repr

/-- Old NodeV3 struct used in the Treelite v3 format (serializer.cc). -/
structure NodeV3 where
  cleft_ : Int
  cright_ : Int
  sindex_ : Int
  info_ : Int
  data_count_ : Int
  sum_hess_ : Int
  gain_ : Int
  split_type_ : Int
  cmp_ : Int
  data_count_present_ : Bool
  sum_hess_present_ : Bool
  gain_present_ : Bool
  categories_list_right_child_ : Bool
deriving DecidableEq, Repr

def TaskParam.toScalars (p : TaskParam) : List Scalar :=
  [.i p.output_type, scalarOfBool p.grove_per_class, .i p.num_class, .i p.leaf_vector_size]

def TaskParam.ofScalars : List Scalar → Option TaskParam
  | [.i a, .i b, .i c, .i d] => some ⟨a, decide (b ≠ 0), c, d⟩
  | _ => none

def ModelParam.toScalars (p : ModelParam) : List Scalar :=
  [.s p.pred_transform, .i p.sigmoid_alpha, .i p.ratio_c, .i p.global_bias]

def ModelParam.ofScalars : List Scalar → Option ModelParam
  | [.s t, .i a, .i r, .i g] => some ⟨t, a, r, g⟩
  | _ => none

def TaskParamV3.toScalars (p : TaskParamV3) : List Scalar :=
  [.i p.output_type, scalarOfBool p.grove_per_class, .i p.num_class, .i p.leaf_vector_size]

def TaskParamV3.ofScalars : List Scalar → Option TaskParamV3
  | [.i a, .i b, .i c, .i d] => some ⟨a, decide (b ≠ 0), c, d⟩
  | _ => none

def ModelParamV3.toScalars (p : ModelParamV3) : List Scalar :=
  [.s p.pred_transform, .i p.sigmoid_alpha, .i p.ratio_c, .i p.global_bias]

def ModelParamV3.ofScalars : List Scalar → Option ModelParamV3
  | [.s t, .i a, .i r, .i g] => some ⟨t, a, r, g⟩
  | _ => none

def Node.toScalars (n : Node) : List Scalar :=
  [.i n.cleft_, .i n.cright_, .i n.sindex_, .i n.info_, .i n.data_count_,
   .i n.sum_hess_, .i n.gain_, .i n.split_type_, .i n.cmp_,
   scalarOfBool n.data_count_present_, scalarOfBool n.sum_hess_present_,
   scalarOfBool n.gain_present_, scalarOfBool n.categories_list_right_child_]

def Node.ofScalars : List Scalar → Option Node
  | [.i a, .i b, .i c, .i d, .i e, .i f, .i g, .i h, .i o, .i p1, .i p2, .i p3, .i p4] =>
      some ⟨a, b, c, d, e, f, g, h, o, decide (p1 ≠ 0), decide (p2 ≠ 0), decide (p3 ≠ 0),
        decide (p4 ≠ 0)⟩
  | _ => none

def NodeV3.toScalars (n : NodeV3) : List Scalar :=
  [.i n.cleft_, .i n.cright_, .i n.sindex_, .i n.info_, .i n.data_count_,
   .i n.sum_hess_, .i n.gain_, .i n.split_type_, .i n.cmp_,
   scalarOfBool n.data_count_present_, scalarOfBool n.sum_hess_present_,
   scalarOfBool n.gain_present_, scalarOfBool n.categories_list_right_child_]

def NodeV3.ofScalars : List Scalar → Option NodeV3
  | [.i a, .i b, .i c, .i d, .i e, .i f, .i g, .i h, .i o, .i p1, .i p2, .i p3, .i p4] =>
      some ⟨a, b, c, d, e, f, g, h, o, decide (p1 ≠ 0), decide (p2 ≠ 0), decide (p3 ≠ 0),
        decide (p4 ≠ 0)⟩
  | _ => none

/-- Modelled from the spec: the tree container of tree.h, with the fields
that serializer.cc reads and writes. -/
structure Tree where
  num_nodes : Int
  has_categorical_split_ : Bool
  nodes_ : List Node
  leaf_vector_ : List Int
  leaf_vector_begin_ : List Int
  leaf_vector_end_ : List Int
  matching_categories_ : List Int
  matching_categories_offset_ : List Int
  num_opt_field_per_tree_ : Int
  num_opt_field_per_node_ : Int
deriving DecidableEq, Repr

/-- Modelled from the spec: a freshly constructed (default) tree, as produced
by emplace_back in DeserializeTrees: zero nodes and empty side arrays. -/
def defaultTree : Tree :=
  ⟨0, false, [], [], [], [], [], [], 0, 0⟩

/-- Modelled from the spec: the model container of tree.h, with the fields
that serializer.cc reads and writes.  The variant over concrete numeric
instantiations is modelled by the TypePair tag plus one untyped tree list. -/
structure Model where
  major_ver_ : Int
  minor_ver_ : Int
  patch_ver_ : Int
  threshold_type_ : Int
  leaf_output_type_ : Int
  variantPair : TypePair
  trees : List Tree
  num_tree_ : Nat
  num_feature : Int
  task_type : Int
  average_tree_output : Bool
  task_param : TaskParam
  param : ModelParam
  num_opt_field_per_model_ : Int
deriving DecidableEq, Repr

def Model.GetThresholdType (m : Model) : Int := m.variantPair.thresholdTag

def Model.GetLeafOutputType (m : Model) : Int := m.variantPair.leafTag

def Model.GetNumTree (m : Model) : Nat := m.trees.length

/-- Modelled from the spec: the fresh model container returned by
Model::Create for a supported type pair, with default-valued metadata. -/
def Model.fresh (p : TypePair) : Model where
  major_ver_ := 0
  minor_ver_ := 0
  patch_ver_ := 0
  threshold_type_ := p.thresholdTag
  leaf_output_type_ := p.leafTag
  variantPair := p
  trees := []
  num_tree_ := 0
  num_feature := 0
  task_type := 0
  average_tree_output := false
  task_param := ⟨0, false, 1, 1⟩
  param := ⟨"identity", 1065353216, 1065353216, 0⟩
  num_opt_field_per_model_ := 0

/-- Modelled from the spec: Model::Create dispatches on the runtime type tag
pair and fails on an unsupported combination. -/
def Model.create (t l : Int) : Except Err Model :=
  match typePairOfTags t l with
  | some p => .ok (Model.fresh p)
  | none => .error .unsupportedTypePair

/-- Layout descriptor of the task-parameter composite, written verbatim in
SerializeHeader (serializer.cc line 101). -/
def taskParamFormat : String := "T\x7b=B=?xx=I=I\x7d"

/-- Layout descriptor of the model-parameter composite, written in
SerializeHeader (serializer.cc line 102) with the maximum
prediction-transform length of 256. -/
def modelParamFormat : String := "T\x7b256s=f=f=f\x7d"

/-- Modelled from the spec: layout descriptor of the v3 task-parameter
composite, as written by the frozen legacy format. -/
def taskParamV3Format : String := "V3T\x7b=B=?xx=I=I\x7d"

/-- Modelled from the spec: layout descriptor of the v3 model-parameter
composite, as written by the frozen legacy format. -/
def modelParamV3Format : String := "V3T\x7b256s=f=f=f\x7d"

/-- Modelled from the spec: GetFormatStringForNode, the node layout
descriptor derived from the numeric type pair of the model. -/
def nodeFormat (t l : Int) : String :=
  "T\x7bnode_v4_" ++ toString t ++ "_" ++ toString l ++ "\x7d"

/-- Modelled from the spec: the node layout descriptor of the frozen legacy
v3 format, incompatible with the current one. -/
def nodeV3Format (t l : Int) : String :=
  "T\x7bnode_v3_" ++ toString t ++ "_" ++ toString l ++ "\x7d"

/-- Serializer::SerializeHeader (serializer.cc lines 80-108): stamps the
current version triple and the numeric type tags into the model, records the
tree count, and writes header 1, the tree count, header 2 and the reserved
per-model optional-field count.  Returns the mutated model and the frames
written, in order. -/
def SerializeHeader (m : Model) : Model × List Frame :=
  let m1 : Model :=
    { m with
      major_ver_ := TREELITE_VER_MAJOR
      minor_ver_ := TREELITE_VER_MINOR
      patch_ver_ := TREELITE_VER_PATCH
      threshold_type_ := m.GetThresholdType
      leaf_output_type_ := m.GetLeafOutputType
      num_tree_ := m.GetNumTree
      num_opt_field_per_model_ := 0 }
  (m1,
    [.prim (.i m1.major_ver_), .prim (.i m1.minor_ver_), .prim (.i m1.patch_ver_),
     .prim (.i m1.threshold_type_), .prim (.i m1.leaf_output_type_),
     .prim (.i (m1.num_tree_ : Int)),
     .prim (.i m1.num_feature), .prim (.i m1.task_type),
     .prim (scalarOfBool m1.average_tree_output),
     .comp taskParamFormat m1.task_param.toScalars,
     .comp modelParamFormat m1.param.toScalars,
     .prim (.i m1.num_opt_field_per_model_)])

/-- Serializer::SerializeTree (serializer.cc lines 122-141): checks the
declared node count against the node-array length (fatal mismatch produces
no output), zeroes the reserved per-tree and per-node optional-field counts,
and writes the tree record fields in order. -/
def SerializeTree (p : TypePair) (t : Tree) : Tree × List Frame × Option Err :=
  if t.num_nodes = (t.nodes_.length : Int) then
    let t1 : Tree := { t with num_opt_field_per_tree_ := 0, num_opt_field_per_node_ := 0 }
    (t1,
      [.prim (.i t1.num_nodes), .prim (scalarOfBool t1.has_categorical_split_),
       .compArr (nodeFormat p.thresholdTag p.leafTag) (t1.nodes_.map Node.toScalars),
       .primArr (t1.leaf_vector_.map Scalar.i),
       .primArr (t1.leaf_vector_begin_.map Scalar.i),
       .primArr (t1.leaf_vector_end_.map Scalar.i),
       .primArr (t1.matching_categories_.map Scalar.i),
       .primArr (t1.matching_categories_offset_.map Scalar.i),
       .prim (.i t1.num_opt_field_per_tree_), .prim (.i t1.num_opt_field_per_node_)],
      none)
  else (t, [], some .countMismatch)

/-- The per-tree loop body of Serializer::SerializeTrees: serializes the
trees in order, stopping at the first fatal check with no output past the
point of failure. -/
def SerializeTreeList (p : TypePair) : List Tree → List Tree × List Frame × Option Err
  | [] => ([], [], none)
  | t :: ts =>
    match SerializeTree p t with
    | (t1, fs, some e) => (t1 :: ts, fs, some e)
    | (t1, fs, none) =>
      let r := SerializeTreeList p ts
      (t1 :: r.1, fs ++ r.2.1, r.2.2)

/-- Serializer::SerializeTrees (serializer.cc lines 110-120): checks the
actual tree count against the declared count (fatal mismatch produces no
output), then serializes each tree in order. -/
def SerializeTrees (m : Model) : Model × List Frame × Option Err :=
  if m.trees.length = m.num_tree_ then
    let r := SerializeTreeList m.variantPair m.trees
    ({ m with trees := r.1 }, r.2.1, r.2.2)
  else (m, [], some .countMismatch)

/-- The shared encode pipeline of Model::GetPyBuffer and
Model::SerializeToStream: SerializeHeader followed by SerializeTrees, with
the output concatenated in order. -/
def SerializeModel (m : Model) : Model × List Frame × Option Err :=
  let h := SerializeHeader m
  let r := SerializeTrees h.1
  (r.1, h.2 ++ r.2.1, r.2.2)

/-- Model::GetPyBuffer (serializer.cc lines 324-330): the buffer-frame
encode; a fatal check during serialization aborts with no artifact. -/
def GetPyBuffer (m : Model) : Except Err (Model × List Frame) :=
  match SerializeModel m with
  | (m1, fs, none) => .ok (m1, fs)
  | (_, _, some e) => .error e

/-- Modelled from the spec: the byte-stream transport writes each frame as
raw scalars in order, with length prefixes for arrays and no layout
descriptors (field sizes implied by type). -/
def Frame.toStream : Frame → List Scalar
  | .prim v => [v]
  | .primArr vs => .i vs.length :: vs
  | .comp _ vs => vs
  | .compArr _ vss => .i vss.length :: vss.foldr (fun g acc => g ++ acc) []

/-- Flattening of a frame sequence into the byte-stream encoding. -/
def framesToStream : List Frame → List Scalar
  | [] => []
  | f :: fs => f.toStream ++ framesToStream fs

/-- Model::SerializeToStream (serializer.cc lines 341-346): the byte-stream
encode; same serializer orchestration over the stream transport. -/
def SerializeToStream (m : Model) : Except Err (Model × List Scalar) :=
  match SerializeModel m with
  | (m1, fs, none) => .ok (m1, framesToStream fs)
  | (_, _, some e) => .error e

/-- Modelled from the spec: the read side of a transport backend, as used by
the Deserializer: read one primitive field, one primitive array, one
composite field (with the layout descriptor and arity expected by the
reader), one composite array, or skip one optional field without
materializing it. -/
structure ReaderOps (σ : Type) where
  prim : σ → Except Err (Scalar × σ)
  primArr : σ → Except Err (List Scalar × σ)
  comp : String → Nat → σ → Except Err (List Scalar × σ)
  compArr : String → Nat → σ → Except Err (List (List Scalar) × σ)
  skipField : σ → Except Err σ

/-- Frame transport: read one primitive frame. -/
def framePrim : List Frame → Except Err (Scalar × List Frame)
  | .prim v :: rest => .ok (v, rest)
  | [] => .error .endOfInput
  | _ :: _ => .error .typeMismatch

/-- Frame transport: read one primitive-array frame. -/
def framePrimArr : List Frame → Except Err (List Scalar × List Frame)
  | .primArr vs :: rest => .ok (vs, rest)
  | [] => .error .endOfInput
  | _ :: _ => .error .typeMismatch

/-- Frame transport: read one composite frame, checking the stored layout
descriptor against the one the reader expects (mismatch is fatal). -/
def frameComp (d : String) (_arity : Nat) :
    List Frame → Except Err (List Scalar × List Frame)
  | .comp d2 vs :: rest => if d2 = d then .ok (vs, rest) else .error .layoutMismatch
  | [] => .error .endOfInput
  | _ :: _ => .error .typeMismatch

/-- Frame transport: read one composite-array frame, checking the layout
descriptor. -/
def frameCompArr (d : String) (_arity : Nat) :
    List Frame → Except Err (List (List Scalar) × List Frame)
  | .compArr d2 vss :: rest => if d2 = d then .ok (vss, rest) else .error .layoutMismatch
  | [] => .error .endOfInput
  | _ :: _ => .error .typeMismatch

/-- Frame transport: skip exactly one frame, whatever its kind. -/
def frameSkip : List Frame → Except Err (List Frame)
  | [] => .error .endOfInput
  | _ :: rest => .ok rest

/-- Modelled from the spec: the buffer-frame read backend. -/
def frameReader : ReaderOps (List Frame) :=
  ⟨framePrim, framePrimArr, frameComp, frameCompArr, frameSkip⟩

/-- Stream transport: read one scalar token. -/
def streamPrim : List Scalar → Except Err (Scalar × List Scalar)
  | v :: rest => .ok (v, rest)
  | [] => .error .endOfInput

/-- Stream transport: read a fixed number of scalar tokens. -/
def takeScalars : Nat → List Scalar → Except Err (List Scalar × List Scalar)
  | 0, s => .ok ([], s)
  | _ + 1, [] => .error .endOfInput
  | n + 1, v :: rest =>
    match takeScalars n rest with
    | .ok (vs, s1) => .ok (v :: vs, s1)
    | .error e => .error e

/-- Stream transport: read one length-prefixed primitive array. -/
def streamPrimArr (s : List Scalar) : Except Err (List Scalar × List Scalar) :=
  match streamPrim s with
  | .ok (.i n, s1) => takeScalars n.toNat s1
  | .ok (.s _, _) => .error .typeMismatch
  | .error e => .error e

/-- Stream transport: read one composite field; the stream carries no layout
descriptor, the arity expected by the reader drives the parse. -/
def streamComp (_d : String) (arity : Nat) (s : List Scalar) :
    Except Err (List Scalar × List Scalar) :=
  takeScalars arity s

/-- Stream transport: read a fixed number of composite elements of a given
arity. -/
def takeScalarGroups : Nat → Nat → List Scalar → Except Err (List (List Scalar) × List Scalar)
  | 0, _, s => .ok ([], s)
  | n + 1, arity, s =>
    match takeScalars arity s with
    | .ok (g, s1) =>
      match takeScalarGroups n arity s1 with
      | .ok (gs, s2) => .ok (g :: gs, s2)
      | .error e => .error e
    | .error e => .error e

/-- Stream transport: read one length-prefixed composite array. -/
def streamCompArr (_d : String) (arity : Nat) (s : List Scalar) :
    Except Err (List (List Scalar) × List Scalar) :=
  match streamPrim s with
  | .ok (.i n, s1) => takeScalarGroups n.toNat arity s1
  | .ok (.s _, _) => .error .typeMismatch
  | .error e => .error e

/-- Modelled from the spec: skipping one optional field on the stream
transport consumes a length prefix followed by that many scalars, without
interpreting them. -/
def streamSkip (s : List Scalar) : Except Err (List Scalar) :=
  match streamPrim s with
  | .ok (.i n, s1) =>
    if n.toNat ≤ s1.length then .ok (s1.drop n.toNat) else .error .endOfInput
  | .ok (.s _, _) => .error .typeMismatch
  | .error e => .error e

/-- Modelled from the spec: the byte-stream read backend. -/
def streamReader : ReaderOps (List Scalar) :=
  ⟨streamPrim, streamPrimArr, streamComp, streamCompArr, streamSkip⟩

/-- DeserializePrimitiveField into an integral slot. -/
def readIntField {σ : Type} (R : ReaderOps σ) (s : σ) : Except Err (Int × σ) :=
  match R.prim s with
  | .ok (.i v, s1) => .ok (v, s1)
  | .ok (.s _, _) => .error .typeMismatch
  | .error e => .error e

/-- DeserializePrimitiveField into a boolean slot. -/
def readBoolField {σ : Type} (R : ReaderOps σ) (s : σ) : Except Err (Bool × σ) :=
  match readIntField R s with
  | .ok (v, s1) => .ok (decide (v ≠ 0), s1)
  | .error e => .error e

/-- DeserializePrimitiveField into the unsigned 64-bit tree-count slot. -/
def readNatField {σ : Type} (R : ReaderOps σ) (s : σ) : Except Err (Nat × σ) :=
  match readIntField R s with
  | .ok (v, s1) => .ok (v.toNat, s1)
  | .error e => .error e

/-- Conversion of raw scalars into an integral array slot. -/
def intsOfScalars : List Scalar → Except Err (List Int)
  | [] => .ok []
  | .i v :: rest =>
    match intsOfScalars rest with
    | .ok vs => .ok (v :: vs)
    | .error e => .error e
  | .s _ :: _ => .error .typeMismatch

/-- DeserializePrimitiveArray into an integral array slot. -/
def readIntArray {σ : Type} (R : ReaderOps σ) (s : σ) : Except Err (List Int × σ) :=
  match R.primArr s with
  | .ok (vs, s1) =>
    match intsOfScalars vs with
    | .ok ints => .ok (ints, s1)
    | .error e => .error e
  | .error e => .error e

/-- The optional-field skip loop: SkipOptionalField invoked a fixed number
of times (the body of the for loops in serializer.cc). -/
def skipFields {σ : Type} (R : ReaderOps σ) : Nat → σ → Except Err σ
  | 0, s => .ok s
  | n + 1, s =>
    match R.skipField s with
    | .ok s1 => skipFields R n s1
    | .error e => .error e

/-- Parse the elements of a decoded composite array as v3 nodes. -/
def nodesV3OfScalars : List (List Scalar) → Except Err (List NodeV3)
  | [] => .ok []
  | g :: gs =>
    match NodeV3.ofScalars g with
    | some n =>
      match nodesV3OfScalars gs with
      | .ok ns => .ok (n :: ns)
      | .error e => .error e
    | none => .error .typeMismatch

/-- Deserializer::DeserializeHeaderAndCreateModelV3 (serializer.cc lines
152-191): reads the numeric type pair, creates the model, stamps the stored
version triple, reads tree count and feature count, reads the legacy task
type, task-parameter and model-parameter composites into local temporaries
that are never stored (their conversion is an unimplemented TODO in the
source), then reads the per-model optional-field count and skips that many
fields. -/
def DeserializeHeaderAndCreateModelV3 {σ : Type} (R : ReaderOps σ)
    (majorVer minorVer patchVer : Int) (s : σ) : Except Err (Model × σ) :=
  match readIntField R s with
  | .error e => .error e
  | .ok (thresholdType, s) =>
  match readIntField R s with
  | .error e => .error e
  | .ok (leafOutputType, s) =>
  match Model.create thresholdType leafOutputType with
  | .error e => .error e
  | .ok model =>
  let model := { model with
    major_ver_ := majorVer, minor_ver_ := minorVer, patch_ver_ := patchVer }
  match readNatField R s with
  | .error e => .error e
  | .ok (numTree, s) =>
  let model := { model with num_tree_ := numTree }
  match readIntField R s with
  | .error e => .error e
  | .ok (numFeature, s) =>
  let model := { model with num_feature := numFeature }
  match readIntField R s with
  | .error e => .error e
  | .ok (_taskTypeV3, s) =>
  match readBoolField R s with
  | .error e => .error e
  | .ok (avg, s) =>
  let model := { model with average_tree_output := avg }
  match R.comp taskParamV3Format 4 s with
  | .error e => .error e
  | .ok (tpScalars, s) =>
  match TaskParamV3.ofScalars tpScalars with
  | none => .error .typeMismatch
  | some _taskParamV3 =>
  match R.comp modelParamV3Format 4 s with
  | .error e => .error e
  | .ok (mpScalars, s) =>
  match ModelParamV3.ofScalars mpScalars with
  | none => .error .typeMismatch
  | some _modelParamV3 =>
  match readIntField R s with
  | .error e => .error e
  | .ok (numOpt, s) =>
  let model := { model with num_opt_field_per_model_ := numOpt }
  match skipFields R numOpt.toNat s with
  | .error e => .error e
  | .ok s => .ok (model, s)

/-- The current-layout header body shared by the accept and warn-forward
outcomes of Deserializer::DeserializeHeaderAndCreateModel (serializer.cc
lines 224-256): reads the numeric type pair, creates the model, stamps the
stored version triple, reads tree count and header 2 into the model, then
(for stored major at least 3) reads the per-model optional-field count and
skips that many fields. -/
def DeserializeHeaderBodyCurrent {σ : Type} (R : ReaderOps σ)
    (majorVer minorVer patchVer : Int) (s : σ) : Except Err (Model × σ) :=
  match readIntField R s with
  | .error e => .error e
  | .ok (thresholdType, s) =>
  match readIntField R s with
  | .error e => .error e
  | .ok (leafOutputType, s) =>
  match Model.create thresholdType leafOutputType with
  | .error e => .error e
  | .ok model =>
  let model := { model with
    major_ver_ := majorVer, minor_ver_ := minorVer, patch_ver_ := patchVer }
  match readNatField R s with
  | .error e => .error e
  | .ok (numTree, s) =>
  let model := { model with num_tree_ := numTree }
  match readIntField R s with
  | .error e => .error e
  | .ok (numFeature, s) =>
  let model := { model with num_feature := numFeature }
  match readIntField R s with
  | .error e => .error e
  | .ok (taskType, s) =>
  let model := { model with task_type := taskType }
  match readBoolField R s with
  | .error e => .error e
  | .ok (avg, s) =>
  let model := { model with average_tree_output := avg }
  match R.comp taskParamFormat 4 s with
  | .error e => .error e
  | .ok (tpScalars, s) =>
  match TaskParam.ofScalars tpScalars with
  | none => .error .typeMismatch
  | some taskParam =>
  let model := { model with task_param := taskParam }
  match R.comp modelParamFormat 4 s with
  | .error e => .error e
  | .ok (mpScalars, s) =>
  match ModelParam.ofScalars mpScalars with
  | none => .error .typeMismatch
  | some modelParam =>
  let model := { model with param := modelParam }
  if majorVer ≥ 3 then
    match readIntField R s with
    | .error e => .error e
    | .ok (numOpt, s) =>
    let model := { model with num_opt_field_per_model_ := numOpt }
    match skipFields R numOpt.toNat s with
    | .error e => .error e
    | .ok s => .ok (model, s)
  else .error .badVersion

/-- Attaches the warnings emitted on a decode path to its result. -/
def withWarns {σ : Type} (w : List Warn) :
    Except Err (Model × σ) → Except Err ((Model × List Warn) × σ)
  | .ok (m, s1) => .ok ((m, w), s1)
  | .error e => .error e

/-- Deserializer::DeserializeHeaderAndCreateModel (serializer.cc lines
193-257): reads the stored version triple first, then decides: different
major and not the 3.9 legacy checkpoint is fatal; (3, 9) goes to the legacy
header with a warning; same major with a newer minor goes to the current
header with a warning; otherwise the current header silently. -/
def DeserializeHeaderAndCreateModel {σ : Type} (R : ReaderOps σ) (s : σ) :
    Except Err ((Model × List Warn) × σ) :=
  match readIntField R s with
  | .error e => .error e
  | .ok (majorVer, s) =>
  match readIntField R s with
  | .error e => .error e
  | .ok (minorVer, s) =>
  match readIntField R s with
  | .error e => .error e
  | .ok (patchVer, s) =>
  if majorVer ≠ TREELITE_VER_MAJOR ∧ ¬(majorVer = 3 ∧ minorVer = 9) then
    .error .badVersion
  else if majorVer = 3 ∧ minorVer = 9 then
    withWarns [Warn.legacyModel]
      (DeserializeHeaderAndCreateModelV3 R majorVer minorVer patchVer s)
  else if majorVer = TREELITE_VER_MAJOR ∧ minorVer > TREELITE_VER_MINOR then
    withWarns [Warn.newerMinor]
      (DeserializeHeaderBodyCurrent R majorVer minorVer patchVer s)
  else
    withWarns []
      (DeserializeHeaderBodyCurrent R majorVer minorVer patchVer s)

/-- Deserializer::DeserializeTree (serializer.cc lines 283-286): the current
tree decode is an unimplemented stub (TODO: Implement v4 protocol); it reads
nothing and leaves the freshly created tree unchanged. -/
def DeserializeTree {σ : Type} (_R : ReaderOps σ) (t : Tree) (s : σ) :
    Except Err (Tree × σ) :=
  .ok (t, s)

/-- Deserializer::DeserializeTreeV3 (serializer.cc lines 288-316): reads the
node count and categorical flag, decodes the v3 node array into a local
variable (its conversion to the current node type is an unimplemented TODO
in the source, so the decoded nodes are never stored in the tree), checks
the decoded length against the declared node count (fatal on mismatch),
reads the five side arrays, then runs the per-tree and per-node
optional-field skip loops. -/
def DeserializeTreeV3 {σ : Type} (R : ReaderOps σ) (p : TypePair) (t : Tree) (s : σ) :
    Except Err (Tree × σ) :=
  match readIntField R s with
  | .error e => .error e
  | .ok (numNodes, s) =>
  let t := { t with num_nodes := numNodes }
  match readBoolField R s with
  | .error e => .error e
  | .ok (hasCat, s) =>
  let t := { t with has_categorical_split_ := hasCat }
  match R.compArr (nodeV3Format p.thresholdTag p.leafTag) 13 s with
  | .error e => .error e
  | .ok (nodeScalars, s) =>
  match nodesV3OfScalars nodeScalars with
  | .error e => .error e
  | .ok nodes =>
  if t.num_nodes = (nodes.length : Int) then
    match readIntArray R s with
    | .error e => .error e
    | .ok (leafVector, s) =>
    let t := { t with leaf_vector_ := leafVector }
    match readIntArray R s with
    | .error e => .error e
    | .ok (leafVectorBegin, s) =>
    let t := { t with leaf_vector_begin_ := leafVectorBegin }
    match readIntArray R s with
    | .error e => .error e
    | .ok (leafVectorEnd, s) =>
    let t := { t with leaf_vector_end_ := leafVectorEnd }
    match readIntArray R s with
    | .error e => .error e
    | .ok (matchingCategories, s) =>
    let t := { t with matching_categories_ := matchingCategories }
    match readIntArray R s with
    | .error e => .error e
    | .ok (matchingCategoriesOffset, s) =>
    let t := { t with matching_categories_offset_ := matchingCategoriesOffset }
    match readIntField R s with
    | .error e => .error e
    | .ok (numOptTree, s) =>
    let t := { t with num_opt_field_per_tree_ := numOptTree }
    match skipFields R numOptTree.toNat s with
    | .error e => .error e
    | .ok s =>
    match readIntField R s with
    | .error e => .error e
    | .ok (numOptNode, s) =>
    let t := { t with num_opt_field_per_node_ := numOptNode }
    match skipFields R numOptNode.toNat s with
    | .error e => .error e
    | .ok s => .ok (t, s)
  else .error .countMismatch

/-- The per-tree loop of Deserializer::DeserializeTrees: the declared number
of freshly created trees, each filled by the (stub) current tree decode. -/
def DeserializeTreeLoop {σ : Type} (R : ReaderOps σ) : Nat → σ → Except Err (List Tree × σ)
  | 0, s => .ok ([], s)
  | n + 1, s =>
    match DeserializeTree R defaultTree s with
    | .error e => .error e
    | .ok (t, s1) =>
      match DeserializeTreeLoop R n s1 with
      | .error e => .error e
      | .ok (ts, s2) => .ok (t :: ts, s2)

/-- Deserializer::DeserializeTrees (serializer.cc lines 259-269). -/
def DeserializeTrees {σ : Type} (R : ReaderOps σ) (m : Model) (s : σ) :
    Except Err (Model × σ) :=
  match DeserializeTreeLoop R m.num_tree_ s with
  | .error e => .error e
  | .ok (ts, s1) => .ok ({ m with trees := ts }, s1)

/-- The per-tree loop of Deserializer::DeserializeTreesV3. -/
def DeserializeTreeLoopV3 {σ : Type} (R : ReaderOps σ) (p : TypePair) :
    Nat → σ → Except Err (List Tree × σ)
  | 0, s => .ok ([], s)
  | n + 1, s =>
    match DeserializeTreeV3 R p defaultTree s with
    | .error e => .error e
    | .ok (t, s1) =>
      match DeserializeTreeLoopV3 R p n s1 with
      | .error e => .error e
      | .ok (ts, s2) => .ok (t :: ts, s2)

/-- Deserializer::DeserializeTreesV3 (serializer.cc lines 271-281). -/
def DeserializeTreesV3 {σ : Type} (R : ReaderOps σ) (m : Model) (s : σ) :
    Except Err (Model × σ) :=
  match DeserializeTreeLoopV3 R m.variantPair m.num_tree_ s with
  | .error e => .error e
  | .ok (ts, s1) => .ok ({ m with trees := ts }, s1)

/-- Model::CreateFromPyBuffer (serializer.cc lines 332-339): header decode
followed by the current tree decode over the buffer-frame transport. -/
def CreateFromPyBuffer (frames : List Frame) : Except Err (Model × List Warn) :=
  match DeserializeHeaderAndCreateModel frameReader frames with
  | .error e => .error e
  | .ok ((m, warns), s) =>
    match DeserializeTrees frameReader m s with
    | .error e => .error e
    | .ok (m1, _) => .ok (m1, warns)

/-- Model::DeserializeFromStream (serializer.cc lines 348-358): header decode
over the byte-stream transport, then the legacy tree decode when the stored
major version is 3, else the current tree decode. -/
def DeserializeFromStream (stream : List Scalar) : Except Err (Model × List Warn) :=
  match DeserializeHeaderAndCreateModel streamReader stream with
  | .error e => .error e
  | .ok ((m, warns), s) =>
    if m.major_ver_ = 3 then
      match DeserializeTreesV3 streamReader m s with
      | .error e => .error e
      | .ok (m1, _) => .ok (m1, warns)
    else
      match DeserializeTrees streamReader m s with
      | .error e => .error e
      | .ok (m1, _) => .ok (m1, warns)

/-- The task type enumeration (task_type.h). -/
inductive TaskType where
  | kBinaryClf
  | kRegressor
  | kMultiClf
  | kLearningToRank
  | kIsolationForest
deriving DecidableEq, Repr

/-- TaskTypeToString (task_type.h lines 47-62). -/
def TaskTypeToString : TaskType → String
  | .kBinaryClf => "kBinaryClf"
  | .kRegressor => "kRegressor"
  | .kMultiClf => "kMultiClf"
  | .kLearningToRank => "kLearningToRank"
  | .kIsolationForest => "kIsolationForest"

/-- StringToTaskType (task_type.h lines 64-79): recognizes the five textual
codes and is fatal on every other string. -/
def StringToTaskType (str : String) : Except Err TaskType :=
  if str = "kBinaryClf" then .ok .kBinaryClf
  else if str = "kRegressor" then .ok .kRegressor
  else if str = "kMultiClf" then .ok .kMultiClf
  else if str = "kLearningToRank" then .ok .kLearningToRank
  else if str = "kIsolationForest" then .ok .kIsolationForest
  else .error .badTaskType

/-- The header frames written by SerializeHeader, expressed over the fields
of the model being serialized (after version and type stamping). -/
def headerFrameList (m : Model) : List Frame :=
  [.prim (.i TREELITE_VER_MAJOR), .prim (.i TREELITE_VER_MINOR), .prim (.i TREELITE_VER_PATCH),
   .prim (.i m.variantPair.thresholdTag), .prim (.i m.variantPair.leafTag),
   .prim (.i (m.trees.length : Int)),
   .prim (.i m.num_feature), .prim (.i m.task_type),
   .prim (scalarOfBool m.average_tree_output),
   .comp taskParamFormat m.task_param.toScalars,
   .comp modelParamFormat m.param.toScalars,
   .prim (.i 0)]

/-- The per-tree record layout as stated by the spec, section 6: node count,
categorical-split flag, node composite array, leaf-value array, leaf-range
begin array, leaf-range end array, category-value array, category-range
array, per-tree optional-field count, per-node optional-field count (the
reserved counts written as zero). -/
def specTreeRecordLayout (p : TypePair) (t : Tree) : List Frame :=
  [.prim (.i t.num_nodes), .prim (scalarOfBool t.has_categorical_split_),
   .compArr (nodeFormat p.thresholdTag p.leafTag) (t.nodes_.map Node.toScalars),
   .primArr (t.leaf_vector_.map Scalar.i),
   .primArr (t.leaf_vector_begin_.map Scalar.i),
   .primArr (t.leaf_vector_end_.map Scalar.i),
   .primArr (t.matching_categories_.map Scalar.i),
   .primArr (t.matching_categories_offset_.map Scalar.i),
   .prim (.i 0), .prim (.i 0)]

/-- The tree records of the artifact, in tree order (spec, section 6). -/
def specTreesLayout (p : TypePair) : List Tree → List Frame
  | [] => []
  | t :: ts => specTreeRecordLayout p t ++ specTreesLayout p ts

/-- The artifact layout as stated by the spec, section 6: version triple
first, then numeric type pair, tree count, feature count, task type,
average-tree-output flag, task-parameter composite, model-parameter
composite, model-level optional-field count, then each tree record in
order. -/
def specArtifactLayout (m : Model) : List Frame :=
  [.prim (.i TREELITE_VER_MAJOR), .prim (.i TREELITE_VER_MINOR), .prim (.i TREELITE_VER_PATCH),
   .prim (.i m.variantPair.thresholdTag), .prim (.i m.variantPair.leafTag),
   .prim (.i (m.trees.length : Int)),
   .prim (.i m.num_feature), .prim (.i m.task_type),
   .prim (scalarOfBool m.average_tree_output),
   .comp taskParamFormat m.task_param.toScalars,
   .comp modelParamFormat m.param.toScalars,
   .prim (.i 0)]
  ++ specTreesLayout m.variantPair m.trees

/-- Equality of decode results is decidable; used to evaluate the code on
concrete artifacts. -/
instance {e a : Type} [DecidableEq e] [DecidableEq a] : DecidableEq (Except e a) := fun x y =>
  match x, y with
  | .error e1, .error e2 =>
    if h : e1 = e2 then .isTrue (by rw [h]) else .isFalse (fun hh => by cases hh; exact h rfl)
  | .ok a1, .ok a2 =>
    if h : a1 = a2 then .isTrue (by rw [h]) else .isFalse (fun hh => by cases hh; exact h rfl)
  | .error _, .ok _ => .isFalse (fun hh => by cases hh)
  | .ok _, .error _ => .isFalse (fun hh => by cases hh)

/-- The three nodes of the worked example of spec section 8: one internal
numerical split and two leaves (payload values are bit patterns). -/
def exampleNodes : List Node :=
  [⟨1, 2, 0, 1056964608, 0, 0, 0, 0, 1, false, false, false, false⟩,
   ⟨-1, -1, 0, 1065353216, 0, 0, 0, 0, 0, false, false, false, false⟩,
   ⟨-1, -1, 0, 3212836864, 0, 0, 0, 0, 0, false, false, false, false⟩]

/-- The one tree of the worked example of spec section 8: three nodes. -/
def exampleTree : Tree :=
  { num_nodes := 3
    has_categorical_split_ := false
    nodes_ := exampleNodes
    leaf_vector_ := []
    leaf_vector_begin_ := [0, 0, 0]
    leaf_vector_end_ := [0, 0, 0]
    matching_categories_ := []
    matching_categories_offset_ := [0, 0, 0]
    num_opt_field_per_tree_ := 0
    num_opt_field_per_node_ := 0 }

/-- The worked example model of spec section 8: numeric type pair
(32-bit threshold, 32-bit leaf output), feature count 10, task type
regressor (tag 1), one tree with 3 nodes. -/
def exampleModel : Model :=
  { Model.fresh .f32f32 with
    trees := [exampleTree]
    num_tree_ := 1
    num_feature := 10
    task_type := 1 }

/-- What the current decode paths actually return for the example model:
the header fields round-trip but the tree body decode is an unimplemented
stub, so the single tree comes back freshly constructed. -/
def exampleDecoded : Model :=
  { Model.fresh .f32f32 with
    major_ver_ := TREELITE_VER_MAJOR
    minor_ver_ := TREELITE_VER_MINOR
    patch_ver_ := TREELITE_VER_PATCH
    trees := [defaultTree]
    num_tree_ := 1
    num_feature := 10
    task_type := 1 }

/-- A single legacy v3 node record. -/
def legacyNode : NodeV3 := ⟨1, 2, 5, 100, 0, 0, 0, 0, 1, false, false, false, false⟩

/-- A well-formed legacy (3.9.0) stream artifact: header for a one-tree
model with 5 features, then one tree record declaring one node and carrying
exactly one node, empty side arrays and zero optional-field counts. -/
def legacyArtifact : List Scalar :=
  [.i 3, .i 9, .i 0, .i 2, .i 2, .i 1, .i 5, .i 0, .i 0]
  ++ TaskParamV3.toScalars ⟨0, false, 1, 1⟩
  ++ ModelParamV3.toScalars ⟨"identity", 0, 0, 0⟩
  ++ [.i 0]
  ++ [.i 1, .i 0, .i 1] ++ NodeV3.toScalars legacyNode
  ++ [.i 0, .i 0, .i 0, .i 0, .i 0]
  ++ [.i 0, .i 0]

/-- The same legacy artifact with the tree declaring two nodes while its
node array carries only one. -/
def legacyArtifactBadCount : List Scalar :=
  [.i 3, .i 9, .i 0, .i 2, .i 2, .i 1, .i 5, .i 0, .i 0]
  ++ TaskParamV3.toScalars ⟨0, false, 1, 1⟩
  ++ ModelParamV3.toScalars ⟨"identity", 0, 0, 0⟩
  ++ [.i 0]
  ++ [.i 2, .i 0, .i 1] ++ NodeV3.toScalars legacyNode
  ++ [.i 0, .i 0, .i 0, .i 0, .i 0]
  ++ [.i 0, .i 0]

/-- What the legacy decode actually returns for legacyArtifact: the tree
keeps the declared node count 1 but its node array stays empty, because the
decoded v3 nodes are dropped (their conversion is an unimplemented TODO). -/
def legacyDecoded : Model :=
  { Model.fresh .f32f32 with
    major_ver_ := 3
    minor_ver_ := 9
    num_tree_ := 1
    num_feature := 5
    trees := [{ defaultTree with num_nodes := 1 }] }

/-- The model produced by decoding the header of a just-encoded model: the
stamped version triple and the logical header fields of the original, on a
freshly created container. -/
def roundtripHeaderModel (m : Model) : Model :=
  { Model.fresh m.variantPair with
    major_ver_ := TREELITE_VER_MAJOR
    minor_ver_ := TREELITE_VER_MINOR
    patch_ver_ := TREELITE_VER_PATCH
    num_tree_ := m.trees.length
    num_feature := m.num_feature
    task_type := m.task_type
    average_tree_output := m.average_tree_output
    task_param := m.task_param
    param := m.param }

/-- The model produced by a full decode of a just-encoded model: the decoded
header plus the declared number of freshly constructed trees (the current
tree decode is a stub). -/
def roundtripModel (m : Model) : Model :=
  { roundtripHeaderModel m with trees := List.replicate m.trees.length defaultTree }

/-- A current-format tree record for the example tree whose per-tree
optional-field count is 1 followed by one optional field, and whose
per-node optional-field count is 1 followed by one optional field: input
that the current tree decode ought to consume and skip. -/
def currentTreeRecordWithOpts : List Frame :=
  [.prim (.i 3), .prim (scalarOfBool false),
   .compArr (nodeFormat kFloat32Tag kFloat32Tag) (exampleNodes.map Node.toScalars),
   .primArr [],
   .primArr [.i 0, .i 0, .i 0],
   .primArr [.i 0, .i 0, .i 0],
   .primArr [],
   .primArr [.i 0, .i 0, .i 0],
   .prim (.i 1), .prim (.i 77),
   .prim (.i 1), .prim (.i 88)]

/-! Helper lemmas shared by the claim theorems. -/

theorem scalarOfBool_decide (b : Bool) :
    decide ((if b then (1 : Int) else 0) ≠ 0) = b := by
  cases b <;> decide

theorem taskParam_ofScalars_toScalars (p : TaskParam) :
    TaskParam.ofScalars p.toScalars = some p := by
  cases p with
  | mk a b c d =>
    simp [TaskParam.toScalars, TaskParam.ofScalars, scalarOfBool, scalarOfBool_decide]

theorem modelParam_ofScalars_toScalars (p : ModelParam) :
    ModelParam.ofScalars p.toScalars = some p := by
  cases p with
  | mk t a r g => simp [ModelParam.toScalars, ModelParam.ofScalars]

theorem taskParamV3_ofScalars_toScalars (p : TaskParamV3) :
    TaskParamV3.ofScalars p.toScalars = some p := by
  cases p with
  | mk a b c d =>
    simp [TaskParamV3.toScalars, TaskParamV3.ofScalars, scalarOfBool, scalarOfBool_decide]

theorem modelParamV3_ofScalars_toScalars (p : ModelParamV3) :
    ModelParamV3.ofScalars p.toScalars = some p := by
  cases p with
  | mk t a r g => simp [ModelParamV3.toScalars, ModelParamV3.ofScalars]

theorem nodeV3_ofScalars_toScalars (n : NodeV3) :
    NodeV3.ofScalars n.toScalars = some n := by
  cases n
  simp [NodeV3.toScalars, NodeV3.ofScalars, scalarOfBool, scalarOfBool_decide]

theorem nodesV3OfScalars_map (ns : List NodeV3) :
    nodesV3OfScalars (ns.map NodeV3.toScalars) = .ok ns := by
  induction ns with
  | nil => rfl
  | cons n ns ih => simp [nodesV3OfScalars, nodeV3_ofScalars_toScalars, ih]

theorem intsOfScalars_map (vs : List Int) :
    intsOfScalars (vs.map Scalar.i) = .ok vs := by
  induction vs with
  | nil => rfl
  | cons v vs ih => simp [intsOfScalars, ih]

theorem typePairOfTags_tags (p : TypePair) :
    typePairOfTags p.thresholdTag p.leafTag = some p := by
  cases p <;> rfl

theorem model_create_tags (p : TypePair) :
    Model.create p.thresholdTag p.leafTag = .ok (Model.fresh p) := by
  simp [Model.create, typePairOfTags_tags]

theorem skipFields_frame_append (opts rest : List Frame) :
    skipFields frameReader opts.length (opts ++ rest) = .ok rest := by
  induction opts with
  | nil => rfl
  | cons f opts ih => simpa [skipFields, frameReader, frameSkip] using ih

theorem skipFields_frameLit_append (opts rest : List Frame) :
    skipFields
        (⟨framePrim, framePrimArr, frameComp, frameCompArr, frameSkip⟩ : ReaderOps (List Frame))
        opts.length (opts ++ rest) = .ok rest :=
  skipFields_frame_append opts rest

theorem deserializeTreeLoop_id {σ : Type} (R : ReaderOps σ) (n : Nat) (s : σ) :
    DeserializeTreeLoop R n s = .ok (List.replicate n defaultTree, s) := by
  induction n with
  | zero => rfl
  | succ n ih => simp [DeserializeTreeLoop, DeserializeTree, ih, List.replicate_succ]

/-! Claim theorems. -/

/-- C9: StringToTaskType maps each of the five recognized textual task-type
codes to the corresponding TaskType variant, and fails fatally on every
other input string. -/
theorem claim_C9 :
    StringToTaskType "kBinaryClf" = .ok .kBinaryClf ∧
    StringToTaskType "kRegressor" = .ok .kRegressor ∧
    StringToTaskType "kMultiClf" = .ok .kMultiClf ∧
    StringToTaskType "kLearningToRank" = .ok .kLearningToRank ∧
    StringToTaskType "kIsolationForest" = .ok .kIsolationForest ∧
    ∀ str : String,
      str ∉ ["kBinaryClf", "kRegressor", "kMultiClf", "kLearningToRank", "kIsolationForest"] →
      StringToTaskType str = .error .badTaskType := by
  refine ⟨rfl, rfl, rfl, rfl, rfl, ?_⟩
  intro str h
  simp only [List.mem_cons, List.not_mem_nil, or_false, not_or] at h
  obtain ⟨h1, h2, h3, h4, h5⟩ := h
  simp [StringToTaskType, h1, h2, h3, h4, h5]

/-- Witness for C9 at a string outside the recognized set. -/
theorem claim_C9_witness :
    StringToTaskType "regressor" = .error .badTaskType :=
  claim_C9.2.2.2.2.2 "regressor" (by decide)

/-- C4: SerializeTrees fails fatally with no output when the actual number
of trees differs from the declared tree count, and SerializeTree fails
fatally with no output when the declared node count of a tree differs from
its node-array length. -/
theorem claim_C4 :
    (∀ m : Model, m.trees.length ≠ m.num_tree_ →
      SerializeTrees m = (m, [], some .countMismatch)) ∧
    (∀ (p : TypePair) (t : Tree), t.num_nodes ≠ (t.nodes_.length : Int) →
      SerializeTree p t = (t, [], some .countMismatch)) := by
  constructor
  · intro m h
    simp [SerializeTrees, h]
  · intro p t h
    simp [SerializeTree, h]

/-- Witness for C4: a model declaring two trees while holding none, and a
tree declaring three nodes while holding none. -/
theorem claim_C4_witness :
    SerializeTrees { Model.fresh .f32f32 with num_tree_ := 2 }
      = ({ Model.fresh .f32f32 with num_tree_ := 2 }, [], some .countMismatch) ∧
    SerializeTree .f32f32 { defaultTree with num_nodes := 3 }
      = ({ defaultTree with num_nodes := 3 }, [], some .countMismatch) :=
  ⟨claim_C4.1 { Model.fresh .f32f32 with num_tree_ := 2 } (by decide),
   claim_C4.2 .f32f32 { defaultTree with num_nodes := 3 } (by decide)⟩

/-- C2: deserialization inspects the stored version triple first: a stored
major different from the current one that is not the 3.9 checkpoint is
fatal; (3, 9) proceeds via the legacy path with a warning; same major with a
newer minor proceeds via the current path with a warning; otherwise the
current path proceeds silently. -/
theorem claim_C2 (a b c : Int) (s : List Frame) :
    (a ≠ TREELITE_VER_MAJOR ∧ ¬(a = 3 ∧ b = 9) →
      DeserializeHeaderAndCreateModel frameReader
          (Frame.prim (.i a) :: Frame.prim (.i b) :: Frame.prim (.i c) :: s)
        = .error .badVersion) ∧
    (a = 3 ∧ b = 9 →
      DeserializeHeaderAndCreateModel frameReader
          (Frame.prim (.i a) :: Frame.prim (.i b) :: Frame.prim (.i c) :: s)
        = withWarns [Warn.legacyModel]
            (DeserializeHeaderAndCreateModelV3 frameReader a b c s)) ∧
    (a = TREELITE_VER_MAJOR ∧ b > TREELITE_VER_MINOR →
      DeserializeHeaderAndCreateModel frameReader
          (Frame.prim (.i a) :: Frame.prim (.i b) :: Frame.prim (.i c) :: s)
        = withWarns [Warn.newerMinor]
            (DeserializeHeaderBodyCurrent frameReader a b c s)) ∧
    (a = TREELITE_VER_MAJOR ∧ b ≤ TREELITE_VER_MINOR →
      DeserializeHeaderAndCreateModel frameReader
          (Frame.prim (.i a) :: Frame.prim (.i b) :: Frame.prim (.i c) :: s)
        = withWarns [] (DeserializeHeaderBodyCurrent frameReader a b c s)) := by
  refine ⟨?_, ?_, ?_, ?_⟩
  · intro h
    simp only [DeserializeHeaderAndCreateModel, readIntField, frameReader, framePrim]
    rw [if_pos h]
  · rintro ⟨ha, hb⟩
    subst ha; subst hb
    simp only [DeserializeHeaderAndCreateModel, readIntField, frameReader, framePrim]
    split_ifs with h1 h2 h3 <;>
      first
        | rfl
        | omega
        | simp_all [TREELITE_VER_MAJOR, TREELITE_VER_MINOR]
  · rintro ⟨ha, hb⟩
    subst ha
    simp only [DeserializeHeaderAndCreateModel, readIntField, frameReader, framePrim]
    split_ifs with h1 h2 h3 <;>
      first
        | rfl
        | omega
        | simp_all [TREELITE_VER_MAJOR, TREELITE_VER_MINOR]
  · rintro ⟨ha, hb⟩
    subst ha
    simp only [DeserializeHeaderAndCreateModel, readIntField, frameReader, framePrim]
    split_ifs with h1 h2 h3 <;>
      first
        | rfl
        | omega
        | simp_all [TREELITE_VER_MAJOR, TREELITE_VER_MINOR]

/-- Witness for C2: the four outcomes at the concrete stored versions
(2, 0, 0), (3, 9, 0), (4, 1, 0) and (4, 0, 0), on an empty remainder. -/
theorem claim_C2_witness :
    DeserializeHeaderAndCreateModel frameReader
        [Frame.prim (.i 2), Frame.prim (.i 0), Frame.prim (.i 0)] = .error .badVersion ∧
    DeserializeHeaderAndCreateModel frameReader
        [Frame.prim (.i 3), Frame.prim (.i 9), Frame.prim (.i 0)]
      = withWarns [Warn.legacyModel]
          (DeserializeHeaderAndCreateModelV3 frameReader 3 9 0 ([] : List Frame)) ∧
    DeserializeHeaderAndCreateModel frameReader
        [Frame.prim (.i 4), Frame.prim (.i 1), Frame.prim (.i 0)]
      = withWarns [Warn.newerMinor]
          (DeserializeHeaderBodyCurrent frameReader 4 1 0 ([] : List Frame)) ∧
    DeserializeHeaderAndCreateModel frameReader
        [Frame.prim (.i 4), Frame.prim (.i 0), Frame.prim (.i 0)]
      = withWarns [] (DeserializeHeaderBodyCurrent frameReader 4 0 0 ([] : List Frame)) :=
  ⟨(claim_C2 2 0 0 []).1 (by decide),
   (claim_C2 3 9 0 []).2.1 (by decide),
   (claim_C2 4 1 0 []).2.2.1 (by decide),
   (claim_C2 4 0 0 []).2.2.2 (by decide)⟩

/-- C10: the legacy header decode reads the stored legacy task type and the
task-parameter and model-parameter composites into local temporaries and
never stores them: the returned model keeps the task type, task parameters
and prediction-transform parameters of a freshly created model, for every
stored value, while the version triple, tree count, feature count and
average-tree-output flag do come from the artifact. -/
theorem claim_C10 (majorVer minorVer patchVer : Int) (p : TypePair) (numTree : Nat)
    (numFeature taskTag : Int) (avg : Bool) (tp : TaskParamV3) (mp : ModelParamV3)
    (rest : List Frame) :
    DeserializeHeaderAndCreateModelV3 frameReader majorVer minorVer patchVer
        (Frame.prim (.i p.thresholdTag) :: Frame.prim (.i p.leafTag) ::
         Frame.prim (.i (numTree : Int)) :: Frame.prim (.i numFeature) ::
         Frame.prim (.i taskTag) :: Frame.prim (scalarOfBool avg) ::
         Frame.comp taskParamV3Format tp.toScalars ::
         Frame.comp modelParamV3Format mp.toScalars ::
         Frame.prim (.i 0) :: rest)
      = .ok ({ Model.fresh p with
          major_ver_ := majorVer, minor_ver_ := minorVer, patch_ver_ := patchVer,
          num_tree_ := numTree, num_feature := numFeature,
          average_tree_output := avg }, rest) := by
  simp only [DeserializeHeaderAndCreateModelV3, readIntField, readBoolField, readNatField,
    frameReader, framePrim, frameComp, model_create_tags, scalarOfBool,
    taskParamV3_ofScalars_toScalars, modelParamV3_ofScalars_toScalars, skipFields]
  simp [scalarOfBool_decide, Model.fresh, taskParamV3_ofScalars_toScalars,
    modelParamV3_ofScalars_toScalars, skipFields]

theorem readIntArray_frame_map (vs : List Int) (rest : List Frame) :
    readIntArray frameReader (Frame.primArr (vs.map Scalar.i) :: rest) = .ok (vs, rest) := by
  simp [readIntArray, frameReader, framePrimArr, intsOfScalars_map]

/-- C7 fails on the code for the current tree decode.  The three sites that
are implemented behave as claimed (first three conjuncts): the model-level
optional-field count of the current header and of the legacy header is read
and exactly that many optional fields are skipped without being
materialized, the parse resuming exactly at the remainder, and the legacy
tree decode does the same for its per-tree and per-node counts.  But on the
current decode path the tree decode is an unimplemented stub, so
DeserializeTrees consumes no input at all (fourth conjunct): in particular,
given a current tree record carrying a per-tree count of 1, one optional
field, a per-node count of 1 and one optional field, none of it is read and
nothing is skipped (fifth conjunct), contradicting the claim for the
per-tree and per-node counts on the current path. -/
theorem claim_C7 :
    (∀ (p : TypePair) (numTree : Nat) (numFeature taskTag : Int) (avg : Bool)
        (tp : TaskParam) (mp : ModelParam) (opts rest : List Frame),
      DeserializeHeaderAndCreateModel frameReader
          (Frame.prim (.i TREELITE_VER_MAJOR) :: Frame.prim (.i TREELITE_VER_MINOR) ::
           Frame.prim (.i TREELITE_VER_PATCH) ::
           Frame.prim (.i p.thresholdTag) :: Frame.prim (.i p.leafTag) ::
           Frame.prim (.i (numTree : Int)) :: Frame.prim (.i numFeature) ::
           Frame.prim (.i taskTag) :: Frame.prim (scalarOfBool avg) ::
           Frame.comp taskParamFormat tp.toScalars ::
           Frame.comp modelParamFormat mp.toScalars ::
           Frame.prim (.i (opts.length : Int)) :: (opts ++ rest))
        = .ok (({ Model.fresh p with
            major_ver_ := TREELITE_VER_MAJOR, minor_ver_ := TREELITE_VER_MINOR,
            patch_ver_ := TREELITE_VER_PATCH, num_tree_ := numTree,
            num_feature := numFeature, task_type := taskTag,
            average_tree_output := avg, task_param := tp, param := mp,
            num_opt_field_per_model_ := (opts.length : Int) }, []), rest)) ∧
    (∀ (patchVer : Int) (p : TypePair) (numTree : Nat) (numFeature taskTag : Int)
        (avg : Bool) (tp : TaskParamV3) (mp : ModelParamV3) (opts rest : List Frame),
      DeserializeHeaderAndCreateModel frameReader
          (Frame.prim (.i 3) :: Frame.prim (.i 9) :: Frame.prim (.i patchVer) ::
           Frame.prim (.i p.thresholdTag) :: Frame.prim (.i p.leafTag) ::
           Frame.prim (.i (numTree : Int)) :: Frame.prim (.i numFeature) ::
           Frame.prim (.i taskTag) :: Frame.prim (scalarOfBool avg) ::
           Frame.comp taskParamV3Format tp.toScalars ::
           Frame.comp modelParamV3Format mp.toScalars ::
           Frame.prim (.i (opts.length : Int)) :: (opts ++ rest))
        = .ok (({ Model.fresh p with
            major_ver_ := 3, minor_ver_ := 9, patch_ver_ := patchVer,
            num_tree_ := numTree, num_feature := numFeature,
            average_tree_output := avg,
            num_opt_field_per_model_ := (opts.length : Int) }, [Warn.legacyModel]), rest)) ∧
    (∀ (p : TypePair) (hasCat : Bool) (nodes : List NodeV3)
        (lv lvb lve mc mco : List Int) (opts1 opts2 rest : List Frame),
      DeserializeTreeV3 frameReader p defaultTree
          (Frame.prim (.i (nodes.length : Int)) :: Frame.prim (scalarOfBool hasCat) ::
           Frame.compArr (nodeV3Format p.thresholdTag p.leafTag)
             (nodes.map NodeV3.toScalars) ::
           Frame.primArr (lv.map Scalar.i) :: Frame.primArr (lvb.map Scalar.i) ::
           Frame.primArr (lve.map Scalar.i) :: Frame.primArr (mc.map Scalar.i) ::
           Frame.primArr (mco.map Scalar.i) ::
           Frame.prim (.i (opts1.length : Int)) ::
           (opts1 ++ (Frame.prim (.i (opts2.length : Int)) :: (opts2 ++ rest))))
        = .ok ({ num_nodes := (nodes.length : Int), has_categorical_split_ := hasCat,
                 nodes_ := [], leaf_vector_ := lv, leaf_vector_begin_ := lvb,
                 leaf_vector_end_ := lve, matching_categories_ := mc,
                 matching_categories_offset_ := mco,
                 num_opt_field_per_tree_ := (opts1.length : Int),
                 num_opt_field_per_node_ := (opts2.length : Int) }, rest)) ∧
    (∀ (m : Model) (s : List Frame),
      DeserializeTrees frameReader m s
        = .ok ({ m with trees := List.replicate m.num_tree_ defaultTree }, s)) ∧
    DeserializeTrees frameReader exampleDecoded currentTreeRecordWithOpts
      = .ok (exampleDecoded, currentTreeRecordWithOpts) := by
  refine ⟨?_, ?_, ?_, ?_, ?_⟩
  · intro p numTree numFeature taskTag avg tp mp opts rest
    simp only [DeserializeHeaderAndCreateModel, DeserializeHeaderBodyCurrent, readIntField,
      readBoolField, readNatField, frameReader, framePrim, frameComp, model_create_tags,
      scalarOfBool, taskParam_ofScalars_toScalars, modelParam_ofScalars_toScalars,
      TREELITE_VER_MAJOR, TREELITE_VER_MINOR, TREELITE_VER_PATCH]
    norm_num
    simp [scalarOfBool_decide, taskParam_ofScalars_toScalars,
      modelParam_ofScalars_toScalars, withWarns,
      skipFields_frameLit_append, Model.fresh]
  · intro patchVer p numTree numFeature taskTag avg tp mp opts rest
    simp only [DeserializeHeaderAndCreateModel, DeserializeHeaderAndCreateModelV3, readIntField,
      readBoolField, readNatField, frameReader, framePrim, frameComp, model_create_tags,
      scalarOfBool, taskParamV3_ofScalars_toScalars, modelParamV3_ofScalars_toScalars,
      TREELITE_VER_MAJOR, TREELITE_VER_MINOR, TREELITE_VER_PATCH]
    norm_num
    simp [scalarOfBool_decide, taskParamV3_ofScalars_toScalars,
      modelParamV3_ofScalars_toScalars, withWarns, skipFields_frameLit_append, Model.fresh]
  · intro p hasCat nodes lv lvb lve mc mco opts1 opts2 rest
    simp only [DeserializeTreeV3, readIntField, readBoolField, frameReader, framePrim,
      frameCompArr, scalarOfBool, nodesV3OfScalars_map, readIntArray_frame_map]
    simp [scalarOfBool_decide, nodesV3OfScalars_map, readIntArray_frame_map,
      readIntArray, framePrimArr, intsOfScalars_map,
      skipFields_frameLit_append, defaultTree]
  · intro m s
    simp [DeserializeTrees, deserializeTreeLoop_id]
  · decide

theorem serializeTree_idem (p : TypePair) (t : Tree) :
    SerializeTree p ((SerializeTree p t).1) = SerializeTree p t := by
  by_cases h : t.num_nodes = (t.nodes_.length : Int)
  · simp [SerializeTree, h]
  · simp [SerializeTree, h]

theorem serializeTreeList_idem (p : TypePair) (ts : List Tree) :
    SerializeTreeList p ((SerializeTreeList p ts).1) = SerializeTreeList p ts := by
  induction ts with
  | nil => rfl
  | cons t ts ih =>
    have hidem := serializeTree_idem p t
    rcases hst : SerializeTree p t with ⟨t1, fs, e⟩
    rw [hst] at hidem
    cases e with
    | some err =>
      simp only [SerializeTreeList, hst]
      simp only [SerializeTreeList, hidem]
    | none =>
      simp only [SerializeTreeList, hst]
      simp only [SerializeTreeList, hidem, ih]

theorem serializeTreeList_len (p : TypePair) (ts : List Tree) :
    (SerializeTreeList p ts).1.length = ts.length := by
  induction ts with
  | nil => rfl
  | cons t ts ih =>
    rcases hst : SerializeTree p t with ⟨t1, fs, e⟩
    cases e with
    | some err => simp [SerializeTreeList, hst]
    | none => simp [SerializeTreeList, hst, ih]

theorem serializeModel_spec (m : Model) :
    SerializeModel m =
      ({ m with major_ver_ := TREELITE_VER_MAJOR, minor_ver_ := TREELITE_VER_MINOR,
                patch_ver_ := TREELITE_VER_PATCH,
                threshold_type_ := m.variantPair.thresholdTag,
                leaf_output_type_ := m.variantPair.leafTag,
                num_tree_ := m.trees.length, num_opt_field_per_model_ := 0,
                trees := (SerializeTreeList m.variantPair m.trees).1 },
       headerFrameList m ++ (SerializeTreeList m.variantPair m.trees).2.1,
       (SerializeTreeList m.variantPair m.trees).2.2) := by
  simp [SerializeModel, SerializeHeader, SerializeTrees, Model.GetNumTree,
    Model.GetThresholdType, Model.GetLeafOutputType, headerFrameList]

/-- C5: encoding is deterministic: running the serializer (SerializeHeader
followed by SerializeTrees) a second time, on the model state left behind by
a first run, produces the identical frame output and the identical error
status. -/
theorem claim_C5 (m : Model) :
    (SerializeModel ((SerializeModel m).1)).2 = (SerializeModel m).2 := by
  simp only [serializeModel_spec, headerFrameList]
  simp [serializeTreeList_idem, serializeTreeList_len]

theorem serializeTree_of_wf (p : TypePair) (t : Tree)
    (h : t.num_nodes = (t.nodes_.length : Int)) :
    SerializeTree p t =
      ({ t with num_opt_field_per_tree_ := 0, num_opt_field_per_node_ := 0 },
       specTreeRecordLayout p t, none) := by
  simp [SerializeTree, h, specTreeRecordLayout]

theorem serializeTreeList_of_wf (p : TypePair) (ts : List Tree)
    (h : ∀ t ∈ ts, t.num_nodes = (t.nodes_.length : Int)) :
    (SerializeTreeList p ts).2.1 = specTreesLayout p ts ∧
    (SerializeTreeList p ts).2.2 = none := by
  induction ts with
  | nil => exact ⟨rfl, rfl⟩
  | cons t ts ih =>
    have ht := serializeTree_of_wf p t (h t (List.mem_cons_self t ts))
    have hih := ih (fun u hu => h u (List.mem_cons_of_mem t hu))
    simp [SerializeTreeList, ht, specTreesLayout, hih.1, hih.2]

/-- C6: serialization writes the artifact fields in exactly the order of the
spec, section 6, with the version triple written first; stated as equality
of the serializer output with the layout transcribed from the spec. -/
theorem claim_C6 (m : Model)
    (h : ∀ t ∈ m.trees, t.num_nodes = (t.nodes_.length : Int)) :
    (SerializeModel m).2 = (specArtifactLayout m, none) := by
  have hw := serializeTreeList_of_wf m.variantPair m.trees h
  rw [serializeModel_spec]
  simp [specArtifactLayout, headerFrameList, hw.1, hw.2]

/-- Witness for C6 at the worked example model. -/
theorem claim_C6_witness :
    (SerializeModel exampleModel).2 = (specArtifactLayout exampleModel, none) :=
  claim_C6 exampleModel (by decide)

/-- C1 fails on the code: encoding the worked example model and decoding it
back (on either transport pair) succeeds but does not reproduce the model:
the current tree decode is an unimplemented stub, so the decoded model
carries a freshly constructed tree with zero nodes in place of the original
three-node tree. -/
theorem claim_C1 :
    Except.map (fun q => DeserializeFromStream q.2) (SerializeToStream exampleModel)
        = .ok (.ok (exampleDecoded, [])) ∧
    Except.map (fun q => CreateFromPyBuffer q.2) (GetPyBuffer exampleModel)
        = .ok (.ok (exampleDecoded, [])) ∧
    exampleDecoded.trees.map Tree.num_nodes = [0] ∧
    exampleModel.trees.map Tree.num_nodes = [3] ∧
    ¬ exampleDecoded.trees = exampleModel.trees := by
  refine ⟨by decide, by decide, by decide, by decide, by decide⟩

/-- C3 fails on the code: decoding a well-formed legacy artifact succeeds
and returns a tree whose declared node count is 1 while its node array is
empty (the locally decoded v3 node array is validated, then dropped); the
declared-count-versus-decoded-length check itself is enforced: an artifact
declaring two nodes while carrying one is rejected fatally. -/
theorem claim_C3 :
    DeserializeFromStream legacyArtifact = .ok (legacyDecoded, [Warn.legacyModel]) ∧
    legacyDecoded.trees.map (fun t => (t.num_nodes, (t.nodes_.length : Int))) = [(1, 0)] ∧
    DeserializeFromStream legacyArtifactBadCount = .error .countMismatch := by
  refine ⟨by decide, by decide, by decide⟩

theorem framesToStream_append (as bs : List Frame) :
    framesToStream (as ++ bs) = framesToStream as ++ framesToStream bs := by
  induction as with
  | nil => rfl
  | cons f fs ih => simp [framesToStream, ih]

theorem dhacm_header_frames (m : Model) (tf : List Frame) :
    DeserializeHeaderAndCreateModel frameReader (headerFrameList m ++ tf)
      = .ok ((roundtripHeaderModel m, []), tf) := by
  simp only [headerFrameList, List.cons_append, List.nil_append]
  simp only [DeserializeHeaderAndCreateModel, DeserializeHeaderBodyCurrent, readIntField,
    readBoolField, readNatField, frameReader, framePrim, frameComp, model_create_tags,
    scalarOfBool, taskParam_ofScalars_toScalars, modelParam_ofScalars_toScalars,
    TREELITE_VER_MAJOR, TREELITE_VER_MINOR, TREELITE_VER_PATCH]
  norm_num
  simp [scalarOfBool_decide, taskParam_ofScalars_toScalars, modelParam_ofScalars_toScalars,
    withWarns, skipFields, roundtripHeaderModel, Model.fresh,
    TREELITE_VER_MAJOR, TREELITE_VER_MINOR, TREELITE_VER_PATCH]

theorem createFromPyBuffer_frames (m : Model) (tf : List Frame) :
    CreateFromPyBuffer (headerFrameList m ++ tf) = .ok (roundtripModel m, []) := by
  simp only [CreateFromPyBuffer, dhacm_header_frames]
  simp [DeserializeTrees, deserializeTreeLoop_id, roundtripModel, roundtripHeaderModel]

theorem dhacm_stream_header (m : Model) (rest : List Scalar) :
    DeserializeHeaderAndCreateModel streamReader (framesToStream (headerFrameList m) ++ rest)
      = .ok ((roundtripHeaderModel m, []), rest) := by
  simp only [framesToStream, headerFrameList, Frame.toStream, List.cons_append,
    List.nil_append, List.append_assoc, TaskParam.toScalars, ModelParam.toScalars]
  simp only [DeserializeHeaderAndCreateModel, DeserializeHeaderBodyCurrent, readIntField,
    readBoolField, readNatField, streamReader, streamPrim, streamComp, takeScalars,
    model_create_tags, scalarOfBool,
    TREELITE_VER_MAJOR, TREELITE_VER_MINOR, TREELITE_VER_PATCH]
  norm_num
  simp [TaskParam.ofScalars, ModelParam.ofScalars, scalarOfBool_decide, skipFields,
    withWarns, roundtripHeaderModel, Model.fresh,
    TREELITE_VER_MAJOR, TREELITE_VER_MINOR, TREELITE_VER_PATCH]

theorem deserializeFromStream_header (m : Model) (rest : List Scalar) :
    DeserializeFromStream (framesToStream (headerFrameList m) ++ rest)
      = .ok (roundtripModel m, []) := by
  simp only [DeserializeFromStream, dhacm_stream_header]
  simp [roundtripHeaderModel, TREELITE_VER_MAJOR, DeserializeTrees,
    deserializeTreeLoop_id, roundtripModel]

/-- C8: encoding a model over the buffer-frame transport and over the
byte-stream transport and decoding each artifact through the corresponding
entry point yields the same decoded result: both decodes succeed and agree
on the model and warnings produced. -/
theorem claim_C8 (m : Model)
    (h : ∀ t ∈ m.trees, t.num_nodes = (t.nodes_.length : Int)) :
    ∃ (m1 : Model) (fs : List Frame) (res : Model × List Warn),
      GetPyBuffer m = .ok (m1, fs) ∧
      SerializeToStream m = .ok (m1, framesToStream fs) ∧
      CreateFromPyBuffer fs = .ok res ∧
      DeserializeFromStream (framesToStream fs) = .ok res := by
  have hw := serializeTreeList_of_wf m.variantPair m.trees h
  refine ⟨(SerializeModel m).1,
    headerFrameList m ++ specTreesLayout m.variantPair m.trees,
    (roundtripModel m, []), ?_, ?_, ?_, ?_⟩
  · conv_lhs => rw [GetPyBuffer, serializeModel_spec]
    simp [hw.1, hw.2, serializeModel_spec]
  · conv_lhs => rw [SerializeToStream, serializeModel_spec]
    simp [hw.1, hw.2, serializeModel_spec]
  · exact createFromPyBuffer_frames m _
  · rw [framesToStream_append]
    exact deserializeFromStream_header m _

/-- Witness for C8 at the worked example model. -/
theorem claim_C8_witness :
    ∃ (m1 : Model) (fs : List Frame) (res : Model × List Warn),
      GetPyBuffer exampleModel = .ok (m1, fs) ∧
      SerializeToStream exampleModel = .ok (m1, framesToStream fs) ∧
      CreateFromPyBuffer fs = .ok res ∧
      DeserializeFromStream (framesToStream fs) = .ok res :=
  claim_C8 exampleModel (by decide)

end TreeliteSpec
